import Mathlib

/-!
Shallow embedding of `src/pgsql_mcp_server/app.py` from the pgsql-mcp-server
repository.

The module is a thin MCP tool layer over an async SQLAlchemy engine.  We embed
each tool function as a pure Lean function.  The database layer (the SQLAlchemy
inspector catalog, and the session used by the raw-SQL executors) is modelled
as an explicit input:

* an introspection catalog call is an `Except String α` — `Except.error e`
  stands for the call raising an exception whose `str(e)` is `e`, and
  `Except.ok v` for it returning the value `v`;
* a session for the executor tools is a `SessionBehavior` recording the
  outcome of `session.execute` and of `session.commit`, with database-layer
  (`SQLAlchemyError`) failures distinguished from any other exception;
* each executor returns, next to its result, the ordered trace of session
  operations (`execute`, `keys`, `fetchall`, `commit`, `rollback`) it
  performed before returning.

A tool that has no `try`/`except` in the source (`get_schema_names`,
`run_dql_query`) returns `Except`, so that a raised exception propagating out
of the tool is visible as `Except.error`; the tools wrapped in `try`/`except`
in the source are total and return plain `String`.

The external `tabulate` library (always called with `tablefmt="simple"`) is
modelled as a deterministic renderer that pads every cell of a column to the
column's maximal width and emits one header line, one separator line, and one
line per data row, in the order given.
-/

/-- Python truthiness coalescing `schema_name or "public"`: `None` and the
empty string are falsy, any other string is kept.  (`app.py` line 61 etc.) -/
def pyOr (x : Option String) (dflt : String) : String :=
  match x with
  | Option.none => dflt
  | Option.some s => if s = "" then dflt else s

/-- How `tabulate` renders a Python `bool` cell. -/
def pyBoolStr (b : Bool) : String := if b then "True" else "False"

/-- How `tabulate` renders a possibly-`None` Python string cell (missing
values render as the empty string). -/
def pyOptCell : Option String → String
  | Option.none => ""
  | Option.some s => s

/-- Pad a string on the right with spaces to width `w`. -/
def padRight (s : String) (w : Nat) : String :=
  s ++ String.mk (List.replicate (w - s.length) ' ')

/-- Column widths for a table: the pointwise maximum of the header widths and
all the cell widths. -/
def colWidths (headers : List String) (rows : List (List String)) : List Nat :=
  rows.foldl (fun ws r => List.zipWith max ws (r.map String.length))
    (headers.map String.length)

/-- Render one table row: the cells in their given order, each padded to its
column width, separated by two spaces. -/
def renderRow (ws : List Nat) (r : List String) : String :=
  String.intercalate "  " (List.zipWith padRight r ws)

/-- The dashed separator line under the header. -/
def sepLine (ws : List Nat) : String :=
  String.intercalate "  " (ws.map (fun w => String.mk (List.replicate w '-')))

/-- The lines of a `tabulate(..., tablefmt="simple")` table: header line,
separator line, then one line per data row in order. -/
def tabulateLines (headers : List String) (rows : List (List String)) :
    List String :=
  let ws := colWidths headers rows
  renderRow ws headers :: sepLine ws :: rows.map (renderRow ws)

/-- Model of the external `tabulate` library with `tablefmt="simple"`. -/
def tabulate (headers : List String) (rows : List (List String)) : String :=
  String.intercalate "\n" (tabulateLines headers rows)

/-- A column descriptor as returned by `inspect(conn).get_columns`. -/
structure ColumnInfo where
  name : String
  type : String
  nullable : Bool
  autoincrement : Bool
  default : Option String
  comment : Option String

/-- An index descriptor as returned by `inspect(conn).get_indexes`. -/
structure IndexInfo where
  name : String
  column_names : List String
  unique : Bool

/-- A foreign-key descriptor as returned by `inspect(conn).get_foreign_keys`. -/
structure FKInfo where
  name : String
  constrained_columns : List String
  referred_schema : Option String
  referred_table : String
  referred_columns : List String

/-- `get_schema_names` (`app.py` lines 38–50).  No `try`/`except`: a failure
of the catalog call propagates out of the tool. -/
def get_schema_names (catalog : Except String (List String)) :
    Except String String :=
  match catalog with
  | Except.error e => Except.error e
  | Except.ok schema_names =>
    if schema_names.isEmpty then
      Except.ok "No schemas found."
    else
      Except.ok ("All schemas: " ++ String.intercalate ", " schema_names)

/-- `get_tables` (`app.py` lines 53–76).  The whole body is wrapped in
`try`/`except Exception`, which formats any failure; the catalog is queried
at the coalesced schema name. -/
def get_tables (catalog : String → Except String (List String))
    (schema_name : Option String) : String :=
  let schema := pyOr schema_name "public"
  match catalog schema with
  | Except.error e => "Error occurred while querying table: " ++ e
  | Except.ok table_names =>
    if table_names.isEmpty then
      "No tables found in schema " ++ schema ++ "."
    else
      tabulate ["Tables in schema '" ++ schema ++ "'"]
        (table_names.map (fun name => [name]))

/-- The row built for one column descriptor in `get_columns`
(`app.py` lines 110–120): name, str(type), nullable, autoincrement,
default, comment — in that source order. -/
def columnRow (col : ColumnInfo) : List String :=
  [col.name, col.type, pyBoolStr col.nullable, pyBoolStr col.autoincrement,
    pyOptCell col.default, pyOptCell col.comment]

/-- `get_columns` (`app.py` lines 79–127), wrapped in `try`/`except`. -/
def get_columns (catalog : String → String → Except String (List ColumnInfo))
    (table : String) (schema_name : Option String) : String :=
  let schema := pyOr schema_name "public"
  match catalog table schema with
  | Except.error e => "Error occurred while querying table: " ++ e
  | Except.ok columns =>
    if columns.isEmpty then
      "No columns found in table."
    else
      "Columns for table '" ++ table ++ "'\n\n" ++
        tabulate ["Name", "Type", "Nullable", "Autoincrement", "Default",
          "Comment"] (columns.map columnRow)

/-- The row built for one index descriptor in `get_indexes`
(`app.py` lines 155–162): the column-name list joined with `", "`. -/
def indexRow (idx : IndexInfo) : List String :=
  [idx.name, String.intercalate ", " idx.column_names, pyBoolStr idx.unique]

/-- `get_indexes` (`app.py` lines 130–169), wrapped in `try`/`except`. -/
def get_indexes (catalog : String → String → Except String (List IndexInfo))
    (table : String) (schema_name : Option String) : String :=
  let schema := pyOr schema_name "public"
  match catalog table schema with
  | Except.error e => "Error occurred while querying table: " ++ e
  | Except.ok indexes =>
    if indexes.isEmpty then
      "No indexes found in table."
    else
      "Indexes for table '" ++ table ++ "'\n\n" ++
        tabulate ["Name", "Column Names", "Unique"] (indexes.map indexRow)

/-- The row built for one foreign-key descriptor in `get_foreign_keys`
(`app.py` lines 200–209): both column lists joined with `", "`. -/
def fkRow (fk : FKInfo) : List String :=
  [fk.name, String.intercalate ", " fk.constrained_columns,
    pyOptCell fk.referred_schema, fk.referred_table,
    String.intercalate ", " fk.referred_columns]

/-- `get_foreign_keys` (`app.py` lines 172–218), wrapped in `try`/`except`. -/
def get_foreign_keys (catalog : String → String → Except String (List FKInfo))
    (table : String) (schema_name : Option String) : String :=
  let schema := pyOr schema_name "public"
  match catalog table schema with
  | Except.error e => "Error occurred while querying table: " ++ e
  | Except.ok foreign_keys =>
    if foreign_keys.isEmpty then
      "No foreign keys found in table " ++ table ++ "."
    else
      "Foreign keys for table '" ++ table ++ "'\n\n" ++
        tabulate ["Name", "Constrained Columns", "Referred Schema",
          "Referred Table", "Referred Columns"] (foreign_keys.map fkRow)

/-- A failure raised by the database layer: `SQLAlchemyError` (caught first
in the source's `except` clauses) versus any other exception. -/
inductive DBError
  | sqlAlchemy (detail : String)
  | other (detail : String)
deriving DecidableEq

/-- The result object of a successful `session.execute`: the driver-reported
column names, the fetched rows (cells already rendered to text), and the
affected-row count. -/
structure QueryResult where
  keys : List String
  rows : List (List String)
  rowcount : Int

/-- The behaviour of the session underlying one executor call: what
`session.execute` does and what `session.commit` would do. -/
structure SessionBehavior where
  execOutcome : Except DBError QueryResult
  commitOutcome : Except DBError Unit

/-- One session operation performed by an executor tool, in program order. -/
inductive Step
  | execute
  | fetchKeys
  | fetchRows
  | commit
  | rollback
deriving DecidableEq

/-- `run_dql_query` (`app.py` lines 221–237).  No `try`/`except`: an
execution failure propagates.  On success it reads the keys, fetches all
rows, and renders them; it never commits or rolls back. -/
def run_dql_query (s : SessionBehavior) : Except DBError String × List Step :=
  match s.execOutcome with
  | Except.error e => (Except.error e, [Step.execute])
  | Except.ok result =>
    let keys := result.keys
    let rows := result.rows
    if rows.isEmpty then
      (Except.ok "Query returned no results.",
        [Step.execute, Step.fetchKeys, Step.fetchRows])
    else
      (Except.ok (tabulate keys rows),
        [Step.execute, Step.fetchKeys, Step.fetchRows])

/-- `run_ddl_query` (`app.py` lines 240–257): execute, commit, fixed success
string; `SQLAlchemyError` and other exceptions are caught separately, each
rolling back and returning its error string. -/
def run_ddl_query (s : SessionBehavior) : String × List Step :=
  match s.execOutcome with
  | Except.error (DBError.sqlAlchemy e) =>
    ("Error occurred while executing DDL query: " ++ e,
      [Step.execute, Step.rollback])
  | Except.error (DBError.other e) =>
    ("Unexpected error occurred while executing DDL query: " ++ e,
      [Step.execute, Step.rollback])
  | Except.ok _ =>
    match s.commitOutcome with
    | Except.ok _ =>
      ("DDL query executed successfully.", [Step.execute, Step.commit])
    | Except.error (DBError.sqlAlchemy e) =>
      ("Error occurred while executing DDL query: " ++ e,
        [Step.execute, Step.commit, Step.rollback])
    | Except.error (DBError.other e) =>
      ("Unexpected error occurred while executing DDL query: " ++ e,
        [Step.execute, Step.commit, Step.rollback])

/-- `run_dml_query` (`app.py` lines 260–277): like `run_ddl_query` but the
success string reports `result.rowcount`. -/
def run_dml_query (s : SessionBehavior) : String × List Step :=
  match s.execOutcome with
  | Except.error (DBError.sqlAlchemy e) =>
    ("Error occurred while executing DML query: " ++ e,
      [Step.execute, Step.rollback])
  | Except.error (DBError.other e) =>
    ("Unexpected error occurred while executing DML query: " ++ e,
      [Step.execute, Step.rollback])
  | Except.ok result =>
    match s.commitOutcome with
    | Except.ok _ =>
      ("DML query executed successfully. Affected rows: " ++
        toString result.rowcount, [Step.execute, Step.commit])
    | Except.error (DBError.sqlAlchemy e) =>
      ("Error occurred while executing DML query: " ++ e,
        [Step.execute, Step.commit, Step.rollback])
    | Except.error (DBError.other e) =>
      ("Unexpected error occurred while executing DML query: " ++ e,
        [Step.execute, Step.commit, Step.rollback])

/-- `run_dcl_query` (`app.py` lines 280–297): like `run_ddl_query` with the
DCL wording. -/
def run_dcl_query (s : SessionBehavior) : String × List Step :=
  match s.execOutcome with
  | Except.error (DBError.sqlAlchemy e) =>
    ("Error occurred while executing DCL query: " ++ e,
      [Step.execute, Step.rollback])
  | Except.error (DBError.other e) =>
    ("Unexpected error occurred while executing DCL query: " ++ e,
      [Step.execute, Step.rollback])
  | Except.ok _ =>
    match s.commitOutcome with
    | Except.ok _ =>
      ("DCL query executed successfully.", [Step.execute, Step.commit])
    | Except.error (DBError.sqlAlchemy e) =>
      ("Error occurred while executing DCL query: " ++ e,
        [Step.execute, Step.commit, Step.rollback])
    | Except.error (DBError.other e) =>
      ("Unexpected error occurred while executing DCL query: " ++ e,
        [Step.execute, Step.commit, Step.rollback])

/-- Python `s.startswith(p)`. -/
def pyStartsWith (s p : String) : Bool := p.data.isPrefixOf s.data

/-- `List`-level helper for Python `s.replace(old, new, 1)`: replace the
first occurrence of `pat` in `s` by `rep`, leaving later occurrences. -/
def replaceFirstAux (pat rep : List Char) : List Char → List Char
  | [] => []
  | c :: rest =>
    if pat.isPrefixOf (c :: rest) then rep ++ (c :: rest).drop pat.length
    else c :: replaceFirstAux pat rep rest

/-- Python `s.replace(old, new, 1)` for a nonempty `old`. -/
def pyReplaceFirst (s old new : String) : String :=
  String.mk (replaceFirstAux old.data new.data s.data)

/-- The DSN resolution of `app_lifespan` (`app.py` lines 19–27): the
`DATABASE_URL` environment variable (`Option.none` when unset), rejected
when unset or empty, and rewritten from `postgresql://` to
`postgresql+asyncpg://` (first occurrence only) before the engine is
created.  `Except.error` stands for the raised `ValueError`. -/
def resolveDsn : Option String → Except String String
  | Option.none => Except.error "DATABASE_URL environment variable not set."
  | Option.some dsn =>
    if dsn = "" then
      Except.error "DATABASE_URL environment variable not set."
    else if pyStartsWith dsn "postgresql://" then
      Except.ok (pyReplaceFirst dsn "postgresql://" "postgresql+asyncpg://")
    else
      Except.ok dsn

/-- The error string an executor labelled `label` returns for a database
failure `e` (used only to state properties; the executors spell the strings
out as the source does). -/
def execErrMsg (label : String) : DBError → String
  | DBError.sqlAlchemy e =>
    "Error occurred while executing " ++ label ++ " query: " ++ e
  | DBError.other e =>
    "Unexpected error occurred while executing " ++ label ++ " query: " ++ e

/-- C2: for every SQL text given to `run_ddl_query`, `run_dml_query` or
`run_dcl_query`, if executing or committing raises, the session is rolled
back before the operation returns (the trace ends with `rollback`), and the
returned string is the database-layer error shape for a `SQLAlchemyError`
and the "Unexpected" shape for any other failure; both branches return a
plain string instead of re-raising. -/
theorem C2_write_query_error_handling (s : SessionBehavior) (err : DBError)
    (h : s.execOutcome = Except.error err ∨
      (∃ r, s.execOutcome = Except.ok r ∧
        s.commitOutcome = Except.error err)) :
    ((run_ddl_query s).1 = execErrMsg "DDL" err ∧
      (run_ddl_query s).2.getLast? = some Step.rollback) ∧
    ((run_dml_query s).1 = execErrMsg "DML" err ∧
      (run_dml_query s).2.getLast? = some Step.rollback) ∧
    ((run_dcl_query s).1 = execErrMsg "DCL" err ∧
      (run_dcl_query s).2.getLast? = some Step.rollback) := by
  rcases h with h | ⟨r, h1, h2⟩
  · cases err with
    | sqlAlchemy e =>
      simp [run_ddl_query, run_dml_query, run_dcl_query, execErrMsg, h]
    | other e =>
      simp [run_ddl_query, run_dml_query, run_dcl_query, execErrMsg, h]
  · cases err with
    | sqlAlchemy e =>
      simp [run_ddl_query, run_dml_query, run_dcl_query, execErrMsg, h1, h2]
    | other e =>
      simp [run_ddl_query, run_dml_query, run_dcl_query, execErrMsg, h1, h2]

/-- Witness for C2 at a concrete failing session. -/
theorem C2_write_query_error_handling_witness :
    ((run_ddl_query ⟨Except.error (DBError.sqlAlchemy "syntax error"),
        Except.ok ()⟩).1 =
      execErrMsg "DDL" (DBError.sqlAlchemy "syntax error") ∧
      (run_ddl_query ⟨Except.error (DBError.sqlAlchemy "syntax error"),
        Except.ok ()⟩).2.getLast? = some Step.rollback) ∧
    ((run_dml_query ⟨Except.error (DBError.sqlAlchemy "syntax error"),
        Except.ok ()⟩).1 =
      execErrMsg "DML" (DBError.sqlAlchemy "syntax error") ∧
      (run_dml_query ⟨Except.error (DBError.sqlAlchemy "syntax error"),
        Except.ok ()⟩).2.getLast? = some Step.rollback) ∧
    ((run_dcl_query ⟨Except.error (DBError.sqlAlchemy "syntax error"),
        Except.ok ()⟩).1 =
      execErrMsg "DCL" (DBError.sqlAlchemy "syntax error") ∧
      (run_dcl_query ⟨Except.error (DBError.sqlAlchemy "syntax error"),
        Except.ok ()⟩).2.getLast? = some Step.rollback) :=
  C2_write_query_error_handling
    ⟨Except.error (DBError.sqlAlchemy "syntax error"), Except.ok ()⟩
    (DBError.sqlAlchemy "syntax error") (Or.inl rfl)

/-- C3: when execute and commit both succeed, `run_ddl_query` returns the
fixed DDL success string, `run_dcl_query` the fixed DCL success string, and
`run_dml_query` the DML success string carrying the reported affected-row
count; in each case the trace is `[execute, commit]`, so the commit happens
before the success string is returned. -/
theorem C3_write_query_success (s : SessionBehavior) (r : QueryResult)
    (hex : s.execOutcome = Except.ok r)
    (hco : s.commitOutcome = Except.ok ()) :
    run_ddl_query s =
      ("DDL query executed successfully.", [Step.execute, Step.commit]) ∧
    run_dcl_query s =
      ("DCL query executed successfully.", [Step.execute, Step.commit]) ∧
    run_dml_query s =
      ("DML query executed successfully. Affected rows: " ++
        toString r.rowcount, [Step.execute, Step.commit]) := by
  simp [run_ddl_query, run_dcl_query, run_dml_query, hex, hco]

/-- Witness for C3 at a concrete successful session. -/
theorem C3_write_query_success_witness :
    run_ddl_query ⟨Except.ok ⟨["id"], [["1"]], 1⟩, Except.ok ()⟩ =
      ("DDL query executed successfully.", [Step.execute, Step.commit]) ∧
    run_dcl_query ⟨Except.ok ⟨["id"], [["1"]], 1⟩, Except.ok ()⟩ =
      ("DCL query executed successfully.", [Step.execute, Step.commit]) ∧
    run_dml_query ⟨Except.ok ⟨["id"], [["1"]], 1⟩, Except.ok ()⟩ =
      ("DML query executed successfully. Affected rows: " ++
        toString (1 : Int), [Step.execute, Step.commit]) :=
  C3_write_query_success ⟨Except.ok ⟨["id"], [["1"]], 1⟩, Except.ok ()⟩
    ⟨["id"], [["1"]], 1⟩ rfl rfl

/-- C4: when execution succeeds, `run_dql_query` returns exactly
`"Query returned no results."` for an empty row set, and otherwise an aligned
text table whose headers are the driver-reported column names; the lines of
that table are the header line, the separator, and one line per row in
exactly the order the engine returned them (each line renders the row's
cells in column order). -/
theorem C4_dql_result_shape (s : SessionBehavior) (r : QueryResult)
    (hex : s.execOutcome = Except.ok r) :
    (r.rows = [] →
      (run_dql_query s).1 = Except.ok "Query returned no results.") ∧
    (r.rows ≠ [] →
      (run_dql_query s).1 = Except.ok (tabulate r.keys r.rows) ∧
      tabulateLines r.keys r.rows =
        renderRow (colWidths r.keys r.rows) r.keys ::
          sepLine (colWidths r.keys r.rows) ::
          r.rows.map (renderRow (colWidths r.keys r.rows))) := by
  constructor
  · intro h
    simp [run_dql_query, hex, h]
  · intro h
    refine ⟨?_, rfl⟩
    rcases hr : r.rows with _ | ⟨a, l⟩
    · exact absurd hr h
    · simp [run_dql_query, hex, hr, tabulate, tabulateLines]

/-- Witness for C4: one empty and one two-row concrete result. -/
theorem C4_dql_result_shape_witness :
    (run_dql_query ⟨Except.ok ⟨["id", "name"], [], 0⟩, Except.ok ()⟩).1 =
      Except.ok "Query returned no results." ∧
    (run_dql_query
        ⟨Except.ok ⟨["id"], [["1"], ["2"]], 0⟩, Except.ok ()⟩).1 =
      Except.ok (tabulate ["id"] [["1"], ["2"]]) :=
  ⟨(C4_dql_result_shape
      ⟨Except.ok ⟨["id", "name"], [], 0⟩, Except.ok ()⟩
      ⟨["id", "name"], [], 0⟩ rfl).1 rfl,
    ((C4_dql_result_shape
      ⟨Except.ok ⟨["id"], [["1"], ["2"]], 0⟩, Except.ok ()⟩
      ⟨["id"], [["1"], ["2"]], 0⟩ rfl).2 (by simp)).1⟩

/-- C7: each introspection operation returns its exact empty-result literal
when the catalog yields an empty list: `"No schemas found."`,
`"No tables found in schema {schema}."`, `"No columns found in table."`,
`"No indexes found in table."`, `"No foreign keys found in table {table}."`. -/
theorem C7_empty_catalog_literals (schema table : String) (h : schema ≠ "") :
    get_schema_names (Except.ok []) = Except.ok "No schemas found." ∧
    get_tables (fun _ => Except.ok []) (Option.some schema) =
      "No tables found in schema " ++ schema ++ "." ∧
    get_columns (fun _ _ => Except.ok []) table (Option.some schema) =
      "No columns found in table." ∧
    get_indexes (fun _ _ => Except.ok []) table (Option.some schema) =
      "No indexes found in table." ∧
    get_foreign_keys (fun _ _ => Except.ok []) table (Option.some schema) =
      "No foreign keys found in table " ++ table ++ "." := by
  simp [get_schema_names, get_tables, get_columns, get_indexes,
    get_foreign_keys, pyOr, h]

/-- Witness for C7 at schema `"public"` and table `"users"`. -/
theorem C7_empty_catalog_literals_witness :
    get_schema_names (Except.ok []) = Except.ok "No schemas found." ∧
    get_tables (fun _ => Except.ok []) (Option.some "public") =
      "No tables found in schema " ++ "public" ++ "." ∧
    get_columns (fun _ _ => Except.ok []) "users" (Option.some "public") =
      "No columns found in table." ∧
    get_indexes (fun _ _ => Except.ok []) "users" (Option.some "public") =
      "No indexes found in table." ∧
    get_foreign_keys (fun _ _ => Except.ok []) "users"
        (Option.some "public") =
      "No foreign keys found in table " ++ "users" ++ "." :=
  C7_empty_catalog_literals "public" "users" (by decide)

/-- C8: `run_dql_query` never issues a commit or a rollback on its session;
its step trace is either `[execute]` (the execute raised and propagated) or
`[execute, fetchKeys, fetchRows]` — only execute and fetch steps. -/
theorem C8_dql_no_commit_or_rollback (s : SessionBehavior) :
    (Step.commit ∉ (run_dql_query s).2 ∧
      Step.rollback ∉ (run_dql_query s).2) ∧
    ((run_dql_query s).2 = [Step.execute] ∨
      (run_dql_query s).2 =
        [Step.execute, Step.fetchKeys, Step.fetchRows]) := by
  obtain ⟨ex, co⟩ := s
  cases ex with
  | error e => simp [run_dql_query]
  | ok r =>
    by_cases h : r.rows.isEmpty <;> simp [run_dql_query, h]

/-- C9: for each of the four schema-taking introspection operations, passing
`None` or the empty string as `schema_name` is coalesced to `"public"`
before the catalog is queried, so the call behaves identically to passing
the default `"public"`. -/
theorem C9_schema_name_coalescing
    (tcat : String → Except String (List String))
    (ccat : String → String → Except String (List ColumnInfo))
    (icat : String → String → Except String (List IndexInfo))
    (fcat : String → String → Except String (List FKInfo))
    (table : String) :
    (get_tables tcat Option.none =
        get_tables tcat (Option.some "public") ∧
      get_tables tcat (Option.some "") =
        get_tables tcat (Option.some "public")) ∧
    (get_columns ccat table Option.none =
        get_columns ccat table (Option.some "public") ∧
      get_columns ccat table (Option.some "") =
        get_columns ccat table (Option.some "public")) ∧
    (get_indexes icat table Option.none =
        get_indexes icat table (Option.some "public") ∧
      get_indexes icat table (Option.some "") =
        get_indexes icat table (Option.some "public")) ∧
    (get_foreign_keys fcat table Option.none =
        get_foreign_keys fcat table (Option.some "public") ∧
      get_foreign_keys fcat table (Option.some "") =
        get_foreign_keys fcat table (Option.some "public")) :=
  ⟨⟨rfl, rfl⟩, ⟨rfl, rfl⟩, ⟨rfl, rfl⟩, ⟨rfl, rfl⟩⟩

/-- C1 counterexample: `get_schema_names` has no `try`/`except`, so a failure
of the catalog call propagates out of the tool instead of being returned as
an `"Error occurred while querying table: ..."` string; likewise
`run_dql_query` propagates an execution failure.  Both are exhibited at a
concrete connection failure. -/
theorem C1_counterexample :
    get_schema_names (Except.error "connection refused") =
      Except.error "connection refused" ∧
    (run_dql_query ⟨Except.error (DBError.other "connection refused"),
        Except.ok ()⟩).1 =
      Except.error (DBError.other "connection refused") :=
  ⟨rfl, rfl⟩

/-- C1 amended: `get_tables`, `get_columns`, `get_indexes` and
`get_foreign_keys` catch every catalog failure and return
`"Error occurred while querying table: {detail}"`; but `get_schema_names`
and `run_dql_query` have no handler and let the failure propagate to the
caller. -/
theorem C1_amended_error_envelope (e : String) (err : DBError)
    (table : String) (sn : Option String) :
    get_tables (fun _ => Except.error e) sn =
      "Error occurred while querying table: " ++ e ∧
    get_columns (fun _ _ => Except.error e) table sn =
      "Error occurred while querying table: " ++ e ∧
    get_indexes (fun _ _ => Except.error e) table sn =
      "Error occurred while querying table: " ++ e ∧
    get_foreign_keys (fun _ _ => Except.error e) table sn =
      "Error occurred while querying table: " ++ e ∧
    get_schema_names (Except.error e) = Except.error e ∧
    (run_dql_query ⟨Except.error err, Except.ok ()⟩).1 =
      Except.error err :=
  ⟨rfl, rfl, rfl, rfl, rfl, rfl⟩

/-- C5 counterexample: the operations do not sort catalog entries by name.
With the catalog yielding `["b", "a"]`, `get_schema_names` presents
`"b, a"` — the catalog's own order — and not the sorted `"a, b"`. -/
theorem C5_counterexample :
    get_schema_names (Except.ok ["b", "a"]) =
      Except.ok "All schemas: b, a" ∧
    get_schema_names (Except.ok ["b", "a"]) ≠
      Except.ok "All schemas: a, b" := by
  refine ⟨rfl, fun hcontra => ?_⟩
  have hs : ("All schemas: b, a" : String) = "All schemas: a, b" :=
    Except.ok.inj hcontra
  exact absurd hs (by decide)

/-- C5 amended: each introspection operation presents the entries exactly in
the order the catalog yields them, with no sorting applied:
`get_schema_names` joins the names in catalog order, and the data lines of
the `get_tables` table are one per name, in catalog order. -/
theorem C5_amended_catalog_order (names : List String) (sn : Option String)
    (h : names ≠ []) :
    get_schema_names (Except.ok names) =
      Except.ok ("All schemas: " ++ String.intercalate ", " names) ∧
    get_tables (fun _ => Except.ok names) sn =
      tabulate ["Tables in schema '" ++ pyOr sn "public" ++ "'"]
        (names.map (fun name => [name])) ∧
    (tabulateLines ["Tables in schema '" ++ pyOr sn "public" ++ "'"]
        (names.map (fun name => [name]))).drop 2 =
      names.map (fun name =>
        renderRow
          (colWidths ["Tables in schema '" ++ pyOr sn "public" ++ "'"]
            (names.map (fun nm => [nm]))) [name]) := by
  rcases names with _ | ⟨a, l⟩
  · exact absurd rfl h
  · refine ⟨rfl, rfl, ?_⟩
    simp [tabulateLines, List.map_map]

/-- Witness for C5 amended at the catalog order `["b", "a"]`. -/
theorem C5_amended_catalog_order_witness :
    get_schema_names (Except.ok ["b", "a"]) =
      Except.ok ("All schemas: " ++ String.intercalate ", " ["b", "a"]) ∧
    get_tables (fun _ => Except.ok ["b", "a"]) (Option.some "public") =
      tabulate ["Tables in schema '" ++ pyOr (Option.some "public") "public"
          ++ "'"] ((["b", "a"] : List String).map (fun name => [name])) ∧
    (tabulateLines ["Tables in schema '" ++
          pyOr (Option.some "public") "public" ++ "'"]
        ((["b", "a"] : List String).map (fun name => [name]))).drop 2 =
      (["b", "a"] : List String).map (fun name =>
        renderRow
          (colWidths ["Tables in schema '" ++
              pyOr (Option.some "public") "public" ++ "'"]
            ((["b", "a"] : List String).map (fun nm => [nm]))) [name]) :=
  C5_amended_catalog_order ["b", "a"] (Option.some "public") (by decide)

/-- C6 counterexample: the row `get_columns` builds for a column puts the
autoincrement flag before the default expression (matching the source's
header order Name, Type, Nullable, Autoincrement, Default, Comment), not
default before autoincrement as claimed.  At a column with
`autoincrement=True` and `default=None` the produced row differs from the
claimed field order. -/
theorem C6_counterexample :
    get_columns (fun _ _ => Except.ok
        [⟨"id", "INTEGER", false, true, Option.none, Option.none⟩])
      "users" (Option.some "public") =
      "Columns for table 'users'\n\n" ++
        tabulate ["Name", "Type", "Nullable", "Autoincrement", "Default",
          "Comment"] [["id", "INTEGER", "False", "True", "", ""]] ∧
    (["id", "INTEGER", "False", "True", "", ""] : List String) ≠
      ["id", "INTEGER", "False", "", "True", ""] := by
  exact ⟨rfl, by decide⟩

/-- C6 amended: `get_columns` renders one table row per column descriptor
with the fields in the source order name, type, nullable, autoincrement,
default, comment (one data line per descriptor); multi-valued fields in
`get_indexes` and `get_foreign_keys` rows are joined with `", "`. -/
theorem C6_amended_descriptor_rows (cols : List ColumnInfo)
    (idxs : List IndexInfo) (fks : List FKInfo) (c : ColumnInfo)
    (idx : IndexInfo) (fk : FKInfo) (table : String) (sn : Option String)
    (hc : cols ≠ []) (hi : idxs ≠ []) (hf : fks ≠ []) :
    get_columns (fun _ _ => Except.ok cols) table sn =
      "Columns for table '" ++ table ++ "'\n\n" ++
        tabulate ["Name", "Type", "Nullable", "Autoincrement", "Default",
          "Comment"] (cols.map columnRow) ∧
    columnRow c = [c.name, c.type, pyBoolStr c.nullable,
      pyBoolStr c.autoincrement, pyOptCell c.default, pyOptCell c.comment] ∧
    (tabulateLines ["Name", "Type", "Nullable", "Autoincrement", "Default",
        "Comment"] (cols.map columnRow)).length = cols.length + 2 ∧
    get_indexes (fun _ _ => Except.ok idxs) table sn =
      "Indexes for table '" ++ table ++ "'\n\n" ++
        tabulate ["Name", "Column Names", "Unique"] (idxs.map indexRow) ∧
    indexRow idx = [idx.name, String.intercalate ", " idx.column_names,
      pyBoolStr idx.unique] ∧
    get_foreign_keys (fun _ _ => Except.ok fks) table sn =
      "Foreign keys for table '" ++ table ++ "'\n\n" ++
        tabulate ["Name", "Constrained Columns", "Referred Schema",
          "Referred Table", "Referred Columns"] (fks.map fkRow) ∧
    fkRow fk = [fk.name, String.intercalate ", " fk.constrained_columns,
      pyOptCell fk.referred_schema, fk.referred_table,
      String.intercalate ", " fk.referred_columns] := by
  rcases cols with _ | ⟨c0, cl⟩
  · exact absurd rfl hc
  rcases idxs with _ | ⟨i0, il⟩
  · exact absurd rfl hi
  rcases fks with _ | ⟨f0, fl⟩
  · exact absurd rfl hf
  refine ⟨rfl, rfl, ?_, rfl, rfl, rfl, rfl⟩
  simp [tabulateLines]

/-- Witness for C6 amended at singleton descriptor lists. -/
theorem C6_amended_descriptor_rows_witness :
    get_columns (fun _ _ => Except.ok
        [⟨"id", "INTEGER", false, true, Option.none, Option.none⟩])
      "users" (Option.some "public") =
      "Columns for table 'users'\n\n" ++
        tabulate ["Name", "Type", "Nullable", "Autoincrement", "Default",
          "Comment"]
          (([⟨"id", "INTEGER", false, true, Option.none, Option.none⟩] :
            List ColumnInfo).map columnRow) ∧
    columnRow ⟨"id", "INTEGER", false, true, Option.none, Option.none⟩ =
      ["id", "INTEGER", pyBoolStr false, pyBoolStr true, pyOptCell
        Option.none, pyOptCell Option.none] ∧
    (tabulateLines ["Name", "Type", "Nullable", "Autoincrement", "Default",
        "Comment"]
        (([⟨"id", "INTEGER", false, true, Option.none, Option.none⟩] :
          List ColumnInfo).map columnRow)).length =
      ([⟨"id", "INTEGER", false, true, Option.none, Option.none⟩] :
        List ColumnInfo).length + 2 ∧
    get_indexes (fun _ _ => Except.ok
        [⟨"idx_users_name", ["name", "id"], false⟩]) "users"
        (Option.some "public") =
      "Indexes for table 'users'\n\n" ++
        tabulate ["Name", "Column Names", "Unique"]
          (([⟨"idx_users_name", ["name", "id"], false⟩] :
            List IndexInfo).map indexRow) ∧
    indexRow ⟨"idx_users_name", ["name", "id"], false⟩ =
      ["idx_users_name", String.intercalate ", " ["name", "id"],
        pyBoolStr false] ∧
    get_foreign_keys (fun _ _ => Except.ok
        [⟨"fk_orders_user", ["user_id"], Option.some "public", "users",
          ["id"]⟩]) "users" (Option.some "public") =
      "Foreign keys for table 'users'\n\n" ++
        tabulate ["Name", "Constrained Columns", "Referred Schema",
          "Referred Table", "Referred Columns"]
          (([⟨"fk_orders_user", ["user_id"], Option.some "public", "users",
            ["id"]⟩] : List FKInfo).map fkRow) ∧
    fkRow ⟨"fk_orders_user", ["user_id"], Option.some "public", "users",
        ["id"]⟩ =
      ["fk_orders_user", String.intercalate ", " ["user_id"],
        pyOptCell (Option.some "public"), "users",
        String.intercalate ", " ["id"]] :=
  C6_amended_descriptor_rows
    [⟨"id", "INTEGER", false, true, Option.none, Option.none⟩]
    [⟨"idx_users_name", ["name", "id"], false⟩]
    [⟨"fk_orders_user", ["user_id"], Option.some "public", "users", ["id"]⟩]
    ⟨"id", "INTEGER", false, true, Option.none, Option.none⟩
    ⟨"idx_users_name", ["name", "id"], false⟩
    ⟨"fk_orders_user", ["user_id"], Option.some "public", "users", ["id"]⟩
    "users" (Option.some "public")
    (List.cons_ne_nil _ _) (List.cons_ne_nil _ _) (List.cons_ne_nil _ _)

/-- Replacing the first occurrence of a nonempty pattern that sits at the
start of the string rewrites exactly that occurrence and keeps the rest. -/
theorem replaceFirstAux_of_start (pat rep t : List Char) (h : pat ≠ []) :
    replaceFirstAux pat rep (pat ++ t) = rep ++ t := by
  rcases pat with _ | ⟨c, cs⟩
  · exact absurd rfl h
  · have hpre : (c :: cs).isPrefixOf (c :: (cs ++ t)) = true := by
      rw [List.isPrefixOf_iff_prefix]
      exact ⟨t, rfl⟩
    show replaceFirstAux (c :: cs) rep (c :: (cs ++ t)) = rep ++ t
    simp only [replaceFirstAux, hpre, if_true]
    congr 1
    show ((c :: cs) ++ t).drop (c :: cs).length = t
    exact List.drop_left _ _

/-- String-level version of `replaceFirstAux_of_start`: Python
`s.replace(old, new, 1)` on a string that begins with the nonempty `old`
rewrites exactly that leading occurrence. -/
theorem pyReplaceFirst_of_start (old new rest : String)
    (h : old.data ≠ []) :
    pyReplaceFirst (old ++ rest) old new = new ++ rest := by
  rcases old with ⟨op⟩
  rcases rest with ⟨rp⟩
  rcases new with ⟨np⟩
  show String.mk (replaceFirstAux op np (op ++ rp)) = String.mk (np ++ rp)
  exact congrArg String.mk (replaceFirstAux_of_start op np rp h)

/-- C10: the lifespan's DSN handling — an unset or empty `DATABASE_URL` is a
fatal error before the engine is created; a DSN starting with
`postgresql://` has exactly that leading occurrence rewritten to
`postgresql+asyncpg://` with the remainder kept verbatim; any other DSN is
passed through unchanged. -/
theorem C10_dsn_resolution (dsn : String) :
    (resolveDsn Option.none =
        Except.error "DATABASE_URL environment variable not set." ∧
      resolveDsn (Option.some "") =
        Except.error "DATABASE_URL environment variable not set.") ∧
    (pyStartsWith dsn "postgresql://" = true →
      ∃ rest, dsn = "postgresql://" ++ rest ∧
        resolveDsn (Option.some dsn) =
          Except.ok ("postgresql+asyncpg://" ++ rest)) ∧
    (dsn ≠ "" → pyStartsWith dsn "postgresql://" = false →
      resolveDsn (Option.some dsn) = Except.ok dsn) := by
  refine ⟨⟨rfl, rfl⟩, ?_, ?_⟩
  · intro h
    obtain ⟨d⟩ := dsn
    rw [pyStartsWith, List.isPrefixOf_iff_prefix] at h
    obtain ⟨t, ht⟩ := h
    refine ⟨String.mk t, ?_, ?_⟩
    · exact (congrArg String.mk ht).symm
    · have hne : String.mk d ≠ "" := by
        intro he
        have hdn : d = [] := congrArg String.data he
        rw [hdn] at ht
        exact absurd ht (by simp)
      have hsw : pyStartsWith (String.mk d) "postgresql://" = true := by
        rw [pyStartsWith, List.isPrefixOf_iff_prefix]
        exact ⟨t, ht⟩
      have hmk : String.mk d = "postgresql://" ++ String.mk t :=
        (congrArg String.mk ht).symm
      simp only [resolveDsn, if_neg hne, hsw, if_true]
      rw [hmk]
      exact congrArg Except.ok
        (pyReplaceFirst_of_start "postgresql://" "postgresql+asyncpg://"
          (String.mk t) (by decide))
  · intro h1 h2
    simp only [resolveDsn, if_neg h1, h2, Bool.false_eq_true, if_false]

/-- Witness for C10: a rewritten and an untouched concrete DSN. -/
theorem C10_dsn_resolution_witness :
    (∃ rest, ("postgresql://localhost/db" : String) =
        "postgresql://" ++ rest ∧
      resolveDsn (Option.some "postgresql://localhost/db") =
        Except.ok ("postgresql+asyncpg://" ++ rest)) ∧
    resolveDsn (Option.some "sqlite:///x.db") =
      Except.ok "sqlite:///x.db" :=
  ⟨(C10_dsn_resolution "postgresql://localhost/db").2.1 (by decide),
    (C10_dsn_resolution "sqlite:///x.db").2.2 (by decide) (by decide)⟩
